import Mathlib

/-!
Shallow embedding of `src/adsb_server.py` (an asyncio websocket fan-out
relay).  Clients (downstream subscribers) are identified by natural
numbers; the mutable module-level state of the Python program
(`CONNECTED_CLIENTS`, `shutdown_event`) is passed and returned
explicitly.  External effects (the open/closed state of a peer's
connection, the outcome of a `send`, of a `connect`, of a `recv`) are
supplied as oracle functions, and the log calls and awaited actions that
the Python functions perform are returned as explicit event lists, so
that the control flow of each function becomes a total Lean function
over those oracles.
-/

/-- Log severity levels used by the `logging` calls in the source. -/
inductive LogLevel where
  | debug
  | info
  | warn
  | error
  | critical
deriving Repr, DecidableEq

/-- Outcome of one `client.send(message_str)` awaited inside
`broadcast_message` (line 86): either it returns, or it raises an
exception carried here as a string.  `asyncio.gather(...,
return_exceptions=True)` turns the raised exception into a returned
value, which this oracle models directly. -/
def SendOracle : Type := Nat → Except String Unit

/-- Observable result of one call to `broadcast_message`
(lines 74-98): which clients had a send task created for them
(`attempts`, line 86), which snapshot members were skipped with a
warning because their connection was already closed (`skipped`,
line 88), and which send failures were logged together with the failing
client's identity (`sendErrors`, lines 92-96; the task name
`SendTo_(address)` identifies the client). -/
structure BroadcastLog where
  attempts : List Nat
  skipped : List Nat
  sendErrors : List (Nat × String)
deriving Repr, DecidableEq

/-- Embedding of `broadcast_message(message_str)` (lines 74-98).
`clients` is the value of `CONNECTED_CLIENTS` at call time, `isOpen c`
the value of `client.open` read at line 85, and `sendRes` the outcome of
each awaited send.  The function returns the produced log events
together with the value of `CONNECTED_CLIENTS` after the call: the body
never mutates the set, so that second component is the input set
unchanged.  Line 76 returns early on an empty message; line 80 returns
early (the `else` at line 97) when the set is empty; otherwise line 82
snapshots the set into `clients_to_send` and lines 84-88 partition the
snapshot by `client.open`. -/
def broadcast_message (msg : String) (clients : List Nat) (isOpen : Nat → Bool)
    (sendRes : SendOracle) : BroadcastLog × List Nat :=
  if msg = "" then
    ({ attempts := [], skipped := [], sendErrors := [] }, clients)
  else if clients = [] then
    ({ attempts := [], skipped := [], sendErrors := [] }, clients)
  else
    let clients_to_send := clients
    let attempts := clients_to_send.filter (fun c => isOpen c)
    let skipped := clients_to_send.filter (fun c => !(isOpen c))
    let errs := attempts.filterMap (fun c =>
      match sendRes c with
      | Except.error e => some (c, e)
      | Except.ok _ => none)
    ({ attempts := attempts, skipped := skipped, sendErrors := errs }, clients)

/-- Outcome of the guard at the top of `register_client`
(lines 29-35): a client arriving during shutdown is closed with
websocket status code 1012 and the reason string of line 32, and is
never added to `CONNECTED_CLIENTS`; otherwise it is registered
(line 37). -/
inductive AcceptOutcome where
  | rejected (code : Nat) (reason : String)
  | registered
deriving Repr, DecidableEq

/-- Embedding of the entry of `register_client` (lines 27-38): the
shutdown check, the rejecting close, and the `CONNECTED_CLIENTS.add`.
Returns the new value of `CONNECTED_CLIENTS` and what happened to the
connection.  `CONNECTED_CLIENTS` is a Python `set`; the embedding keeps
it as a duplicate-free list, and `add` inserts only if absent. -/
def register_client_entry (sh : Bool) (clients : List Nat) (c : Nat) :
    List Nat × AcceptOutcome :=
  if sh then
    (clients, AcceptOutcome.rejected 1012 "Server shutting down")
  else
    (if c ∈ clients then clients else c :: clients, AcceptOutcome.registered)

/-- Embedding of `os_signal_handler(sig, frame)` (lines 221-229): logs
an info line, then sets `shutdown_event` if it is not already set, and
logs a warning if it is.  Returns the new value of the event flag and
the log lines produced. -/
def os_signal_handler (sh : Bool) : Bool × List (LogLevel × String) :=
  if sh then
    (sh, [(LogLevel.info, "Received OS signal"),
          (LogLevel.warn, "Shutdown already in progress.")])
  else
    (true, [(LogLevel.info, "Received OS signal")])

/-- Embedding of the coordinator's set of `shutdown_event` inside
`main_server_logic` (lines 175-177): logs the info line of line 175,
then sets the event only if it is not already set.  No warning is
produced on this path when the event is already set. -/
def coordinator_set_shutdown (sh : Bool) : Bool × List (LogLevel × String) :=
  if sh then
    (sh, [(LogLevel.info, "Initiating shutdown sequence...")])
  else
    (true, [(LogLevel.info, "Initiating shutdown sequence...")])

/-- Outcome of one `websockets.connect(EXTERNAL_WS_URI)` attempt
(line 107): success, a failure of one of the kinds caught at line 122
(`WebSocketException`, `ConnectionRefusedError`, `OSError`; logged as a
warning mentioning the 5s retry), or any other exception (line 124;
logged as an error). -/
inductive ConnectOutcome where
  | connOk
  | connFailKnown
  | connFailOther
deriving Repr, DecidableEq

/-- Outcome of one `asyncio.wait_for(external_websocket.recv(), timeout=1.0)`
(line 111): a message, a timeout (line 114), the connection closing
(line 116), or any other receive error (line 119). -/
inductive RecvOutcome where
  | rMsg (s : String)
  | rTimeout
  | rClosed
  | rErr
deriving Repr, DecidableEq

/-- Oracle environment for `receive_from_external_adsb`.  Time is
discrete; `sh t` is the value of `shutdown_event.is_set()` when read at
instant `t` (the event is set by other tasks, so it is a function of
time); `connect k` is the outcome of the `k`-th connect attempt, and
`recv r` the outcome of the `r`-th receive call overall. -/
structure ConnEnv where
  sh : Nat → Bool
  connect : Nat → ConnectOutcome
  recv : Nat → RecvOutcome

/-- Monotonicity of the shutdown signal over time: once set, it stays
set (the program never calls `clear`). -/
def ShMono (sh : Nat → Bool) : Prop :=
  ∀ u v : Nat, u ≤ v → sh u = true → sh v = true

/-- Observable events of the upstream-connector task.
`connectAttempt t k` records that the `k`-th connect attempt was begun
at instant `t` (so the loop guard of line 104 read `false` at `t`);
`bcast s` records a call `await broadcast_message(s)` (line 113);
`waitRetry t d` records the retry wait of lines 127-131, started at `t`
and lasting `d` time units; `stopped t` records the loop guard reading
`true` at `t`, after which the coroutine runs line 132 and returns
`None`. -/
inductive CEv where
  | connectAttempt (t k : Nat)
  | connected (t : Nat)
  | bcast (s : String)
  | waitRetry (t d : Nat)
  | stopped (t : Nat)
deriving Repr, DecidableEq

/-- Duration of `asyncio.wait_for(shutdown_event.wait(), timeout=n)`
started at instant `t`: the wait completes at the first instant within
the timeout window at which the event is set, and otherwise times out
after exactly `n` units. -/
def wait_for_shutdown (sh : Nat → Bool) : Nat → Nat → Nat
  | _, 0 => 0
  | t, n + 1 => if sh t then 0 else wait_for_shutdown sh (t + 1) n + 1

/-- Embedding of the inner receive loop of `receive_from_external_adsb`
(lines 109-121): while the shutdown event is unset, await one receive
(one time unit); a timeout re-checks the guard and continues, a message
is forwarded to `broadcast_message` only when non-empty (line 112), and
a closed connection or receive error breaks out to the reconnect logic.
Returns the events produced, the instant at which the loop exited, and
the next global receive index.  The fuel argument only truncates the
trace; every run of the Python loop is some finite prefix. -/
def recv_loop (env : ConnEnv) : Nat → Nat → Nat → List CEv × Nat × Nat
  | 0, t, r => ([], t, r)
  | fuel + 1, t, r =>
    if env.sh t then ([], t, r)
    else
      match env.recv r with
      | RecvOutcome.rTimeout => recv_loop env fuel (t + 1) (r + 1)
      | RecvOutcome.rMsg s =>
        let rest := recv_loop env fuel (t + 1) (r + 1)
        (if s = "" then rest.1 else CEv.bcast s :: rest.1, rest.2)
      | RecvOutcome.rClosed => ([], t + 1, r + 1)
      | RecvOutcome.rErr => ([], t + 1, r + 1)

/-- Embedding of the outer loop of `receive_from_external_adsb`
(lines 104-132): while the shutdown event is unset, attempt a connect;
on success run the inner receive loop; after the attempt (failed
connect, broken receive loop, or shutdown-exited receive loop) run
lines 127-131: if the shutdown event is still unset, wait on it for at
most 5 time units, then loop.  `g` is the fuel of each inner receive
loop, `t` the current instant, `k` the next connect-attempt index and
`r` the next receive index. -/
def receive_from_external_adsb (env : ConnEnv) (g : Nat) :
    Nat → Nat → Nat → Nat → List CEv
  | 0, _, _, _ => []
  | fuel + 1, t, k, r =>
    if env.sh t then [CEv.stopped t]
    else
      let conn :=
        match env.connect k with
        | ConnectOutcome.connOk =>
          let inner := recv_loop env g (t + 1) r
          (CEv.connected t :: inner.1, inner.2.1, inner.2.2)
        | ConnectOutcome.connFailKnown => ([], t + 1, r)
        | ConnectOutcome.connFailOther => ([], t + 1, r)
      let t1 := conn.2.1
      let r1 := conn.2.2
      let tail :=
        if env.sh t1 then
          receive_from_external_adsb env g fuel t1 (k + 1) r1
        else
          let d := wait_for_shutdown env.sh t1 5
          CEv.waitRetry t1 d ::
            receive_from_external_adsb env g fuel (t1 + d) (k + 1) r1
      CEv.connectAttempt t k :: conn.1 ++ tail

/-- Outcome of `websockets.serve(...)` at lines 138-142: success, an
`OSError` with `errno == 10048` (line 144), any other `OSError`
(line 147), or any other exception (line 150). -/
inductive BindOutcome where
  | bindOk
  | osErrPortInUse
  | osErrOther
  | otherExc
deriving Repr, DecidableEq

/-- Observable actions of `main_server_logic` (lines 135-218), in
program order: critical startup logs, task starts, the logs after the
first-completed wait of line 160, setting the shutdown event
(lines 176-177), cancelling pending tasks (lines 180-182), closing the
listener and waiting for it (lines 185-190), awaiting the main tasks
with the 10-unit bound (lines 194-216), and the completion log of
line 218. -/
inductive MEv where
  | logCritical (what : String)
  | listenerStarted
  | connectorTaskStarted
  | logConnectorExit (exc : Option String)
  | logShutdownTriggered
  | eventSet
  | cancelPending
  | listenerClose
  | logServerCloseTimeout
  | awaitMainTasks
  | logTasksTimeout
  | forcedCancel
  | shutdownComplete
deriving Repr, DecidableEq

/-- Embedding of `main_server_logic` (lines 135-218) as the ordered
list of actions it performs.  `b` is the outcome of the listener bind;
`connectorDoneFirst` tells which of the two awaited tasks completed
first at line 160 (`true`: `external_data_task`, line 165; `false`:
`shutdown_wait_task`, line 169); `exc` is the exception, if any, with
which the connector task exited (line 167); `sh` is the value of
`shutdown_event.is_set()` read at line 176; `serverCloseInTime` and
`tasksFinishInTime` tell whether the 5-unit wait of line 187 and the
10-unit wait of line 204 completed within their bounds.  Every branch
returns a finite action list: no exception escapes the function. -/
def main_server_logic (b : BindOutcome) (connectorDoneFirst : Bool)
    (exc : Option String) (sh : Bool)
    (serverCloseInTime tasksFinishInTime : Bool) : List MEv :=
  match b with
  | BindOutcome.osErrPortInUse => [MEv.logCritical "Port already in use"]
  | BindOutcome.osErrOther => [MEv.logCritical "OSError during server startup"]
  | BindOutcome.otherExc => [MEv.logCritical "Failed to start local server"]
  | BindOutcome.bindOk =>
    [MEv.listenerStarted, MEv.connectorTaskStarted]
    ++ (if connectorDoneFirst then [MEv.logConnectorExit exc]
        else [MEv.logShutdownTriggered])
    ++ (if sh then [] else [MEv.eventSet])
    ++ [MEv.cancelPending, MEv.listenerClose]
    ++ (if serverCloseInTime then [] else [MEv.logServerCloseTimeout])
    ++ [MEv.awaitMainTasks]
    ++ (if tasksFinishInTime then [] else [MEv.logTasksTimeout, MEv.forcedCancel])
    ++ [MEv.shutdownComplete]

/-- Joint state of the registry, the per-client connection state and
the shutdown flag, for reasoning about the lifecycle of
`register_client` sessions (lines 27-71).  `conns` maps each accepted
client to the state of its websocket: `true` while the connection is
open (the `Active` state), `false` once closed. -/
structure SysState where
  registry : List Nat
  conns : List (Nat × Bool)
  sh : Bool
deriving Repr, DecidableEq

/-- A client is in the `Active` state when its connection exists and is
open. -/
def isActive (s : SysState) (c : Nat) : Bool :=
  (s.conns.lookup c).getD false

/-- Scheduler-visible events of the subscriber lifecycle: `accept c`
runs the entry of `register_client` for a fresh client `c`
(lines 29-38); `peerClose c` is the remote peer closing its connection
(the completion of `wait_closed`, line 39, is observed later by the
session task); `sessionEnd c` is the rest of the handler running to its
`finally` block, which closes the connection if the shutdown path took
it and removes `c` from the registry (lines 48-71); `setShutdown` is
the shutdown event being set. -/
inductive SEv where
  | accept (c : Nat)
  | peerClose (c : Nat)
  | sessionEnd (c : Nat)
  | setShutdown
deriving Repr, DecidableEq

/-- Point update of the connection map. -/
def setConn (conns : List (Nat × Bool)) (c : Nat) (v : Bool) :
    List (Nat × Bool) :=
  conns.map (fun p => if p.1 = c then (c, v) else p)

/-- One scheduler step of the subscriber lifecycle, following the
source: an accepted client is registered only when the shutdown event
is unset (otherwise its connection is closed and it is never
registered); a peer close only flips the connection state, the registry
entry disappears only when that client's session task subsequently runs
its `finally` block (lines 68-71). -/
def session_step (s : SysState) : SEv → SysState
  | SEv.accept c =>
    let res := register_client_entry s.sh s.registry c
    match res.2 with
    | AcceptOutcome.rejected _ _ => { s with conns := (c, false) :: s.conns }
    | AcceptOutcome.registered =>
      { s with registry := res.1, conns := (c, true) :: s.conns }
  | SEv.peerClose c => { s with conns := setConn s.conns c false }
  | SEv.sessionEnd c =>
    { s with registry := s.registry.erase c, conns := setConn s.conns c false }
  | SEv.setShutdown => { s with sh := true }

/-- Run a list of scheduler events from a state. -/
def session_run (s : SysState) : List SEv → SysState
  | [] => s
  | e :: es => session_run (session_step s e) es

/-- Initial state of the program: empty registry, no connections,
shutdown event unset (lines 22-24). -/
def initState : SysState := { registry := [], conns := [], sh := false }

/-! ## General lemmas about the embedded operations -/

/-- Counting occurrences in a filtered duplicate-free list. -/
theorem count_filter_nodup (l : List Nat) (p : Nat → Bool) (c : Nat)
    (h : l.Nodup) :
    (l.filter p).count c = if c ∈ l ∧ p c = true then 1 else 0 := by
  by_cases hpc : p c = true
  · rw [List.count_filter hpc]
    by_cases hc : c ∈ l
    · simp [hc, hpc, List.count_eq_one_of_mem h hc]
    · simp [hc, List.count_eq_zero.mpr hc]
  · have hnm : c ∉ l.filter p := fun hmem => hpc (List.mem_filter.mp hmem).2
    simp [List.count_eq_zero.mpr hnm, hpc]

/-- On a non-empty message, the send attempts of `broadcast_message`
are exactly the open clients of the snapshot, in snapshot order. -/
theorem broadcast_message_attempts (msg : String) (clients : List Nat)
    (isOpen : Nat → Bool) (sendRes : SendOracle) (h : msg ≠ "") :
    (broadcast_message msg clients isOpen sendRes).1.attempts
      = clients.filter (fun c => isOpen c) := by
  by_cases hcl : clients = [] <;> simp [broadcast_message, h, hcl]

/-- On a non-empty message, the skipped clients of `broadcast_message`
are exactly the closed clients of the snapshot. -/
theorem broadcast_message_skipped (msg : String) (clients : List Nat)
    (isOpen : Nat → Bool) (sendRes : SendOracle) (h : msg ≠ "") :
    (broadcast_message msg clients isOpen sendRes).1.skipped
      = clients.filter (fun c => !(isOpen c)) := by
  by_cases hcl : clients = [] <;> simp [broadcast_message, h, hcl]

/-- On a non-empty message, the logged send failures of
`broadcast_message` are exactly the failing sends among the attempts,
each paired with the failing client's identity. -/
theorem broadcast_message_sendErrors (msg : String) (clients : List Nat)
    (isOpen : Nat → Bool) (sendRes : SendOracle) (h : msg ≠ "") :
    (broadcast_message msg clients isOpen sendRes).1.sendErrors
      = (clients.filter (fun c => isOpen c)).filterMap (fun c =>
          match sendRes c with
          | Except.error e => some (c, e)
          | Except.ok _ => none) := by
  by_cases hcl : clients = [] <;> simp [broadcast_message, h, hcl]

/-- `broadcast_message` never modifies `CONNECTED_CLIENTS`. -/
theorem broadcast_message_registry (msg : String) (clients : List Nat)
    (isOpen : Nat → Bool) (sendRes : SendOracle) :
    (broadcast_message msg clients isOpen sendRes).2 = clients := by
  by_cases h : msg = "" <;> by_cases hcl : clients = [] <;>
    simp [broadcast_message, h, hcl]

/-- With no fuel the connector trace is empty. -/
theorem connector_zero (env : ConnEnv) (g t k r : Nat) :
    receive_from_external_adsb env g 0 t k r = [] := rfl

/-- When the loop guard of line 104 reads `true`, the outer loop exits
at once: the coroutine logs line 132 and returns. -/
theorem connector_sh_true (env : ConnEnv) (g n t k r : Nat)
    (hsh : env.sh t = true) :
    receive_from_external_adsb env g (n + 1) t k r = [CEv.stopped t] := by
  rw [receive_from_external_adsb]
  simp [hsh]

/-- Unfolding of one outer iteration whose connect attempt fails with
one of the exception kinds of line 122. -/
theorem connector_fail_known (env : ConnEnv) (g n t k r : Nat)
    (hsh : env.sh t = false)
    (hc : env.connect k = ConnectOutcome.connFailKnown) :
    receive_from_external_adsb env g (n + 1) t k r
      = CEv.connectAttempt t k ::
          (if env.sh (t + 1) then
            receive_from_external_adsb env g n (t + 1) (k + 1) r
          else
            CEv.waitRetry (t + 1) (wait_for_shutdown env.sh (t + 1) 5) ::
              receive_from_external_adsb env g n
                (t + 1 + wait_for_shutdown env.sh (t + 1) 5) (k + 1) r) := by
  rw [receive_from_external_adsb]
  simp [hsh, hc]

/-- Unfolding of one outer iteration whose connect attempt fails with
an unexpected exception (line 124). -/
theorem connector_fail_other (env : ConnEnv) (g n t k r : Nat)
    (hsh : env.sh t = false)
    (hc : env.connect k = ConnectOutcome.connFailOther) :
    receive_from_external_adsb env g (n + 1) t k r
      = CEv.connectAttempt t k ::
          (if env.sh (t + 1) then
            receive_from_external_adsb env g n (t + 1) (k + 1) r
          else
            CEv.waitRetry (t + 1) (wait_for_shutdown env.sh (t + 1) 5) ::
              receive_from_external_adsb env g n
                (t + 1 + wait_for_shutdown env.sh (t + 1) 5) (k + 1) r) := by
  rw [receive_from_external_adsb]
  simp [hsh, hc]

/-- Unfolding of one outer iteration whose connect attempt succeeds and
runs the inner receive loop. -/
theorem connector_ok (env : ConnEnv) (g n t k r : Nat)
    (hsh : env.sh t = false)
    (hc : env.connect k = ConnectOutcome.connOk) :
    receive_from_external_adsb env g (n + 1) t k r
      = CEv.connectAttempt t k :: CEv.connected t ::
          (recv_loop env g (t + 1) r).1 ++
          (if env.sh (recv_loop env g (t + 1) r).2.1 then
            receive_from_external_adsb env g n
              (recv_loop env g (t + 1) r).2.1 (k + 1)
              (recv_loop env g (t + 1) r).2.2
          else
            CEv.waitRetry (recv_loop env g (t + 1) r).2.1
              (wait_for_shutdown env.sh (recv_loop env g (t + 1) r).2.1 5) ::
              receive_from_external_adsb env g n
                ((recv_loop env g (t + 1) r).2.1
                  + wait_for_shutdown env.sh (recv_loop env g (t + 1) r).2.1 5)
                (k + 1) (recv_loop env g (t + 1) r).2.2) := by
  rw [receive_from_external_adsb]
  simp [hsh, hc]

/-- With no fuel the inner receive loop contributes nothing. -/
theorem recv_loop_zero (env : ConnEnv) (t r : Nat) :
    recv_loop env 0 t r = ([], t, r) := rfl

/-- The inner receive loop exits when the guard of line 109 reads
`true`. -/
theorem recv_loop_sh_true (env : ConnEnv) (n t r : Nat)
    (h : env.sh t = true) :
    recv_loop env (n + 1) t r = ([], t, r) := by
  rw [recv_loop]; simp [h]

/-- A receive timeout (line 114) re-checks the guard and continues. -/
theorem recv_loop_timeout (env : ConnEnv) (n t r : Nat)
    (h : env.sh t = false) (hr : env.recv r = RecvOutcome.rTimeout) :
    recv_loop env (n + 1) t r = recv_loop env n (t + 1) (r + 1) := by
  rw [recv_loop]; simp [h, hr]

/-- A received message is forwarded to `broadcast_message` exactly when
it is non-empty (line 112), and the loop continues. -/
theorem recv_loop_msg (env : ConnEnv) (n t r : Nat) (s : String)
    (h : env.sh t = false) (hr : env.recv r = RecvOutcome.rMsg s) :
    recv_loop env (n + 1) t r
      = (if s = "" then (recv_loop env n (t + 1) (r + 1)).1
         else CEv.bcast s :: (recv_loop env n (t + 1) (r + 1)).1,
         (recv_loop env n (t + 1) (r + 1)).2) := by
  rw [recv_loop]; simp [h, hr]

/-- A closed upstream connection (line 116) breaks the inner loop. -/
theorem recv_loop_closed (env : ConnEnv) (n t r : Nat)
    (h : env.sh t = false) (hr : env.recv r = RecvOutcome.rClosed) :
    recv_loop env (n + 1) t r = ([], t + 1, r + 1) := by
  rw [recv_loop]; simp [h, hr]

/-- A receive error (line 119) breaks the inner loop. -/
theorem recv_loop_err (env : ConnEnv) (n t r : Nat)
    (h : env.sh t = false) (hr : env.recv r = RecvOutcome.rErr) :
    recv_loop env (n + 1) t r = ([], t + 1, r + 1) := by
  rw [recv_loop]; simp [h, hr]

/-- Every event of the inner receive loop is a broadcast call. -/
theorem recv_loop_events (env : ConnEnv) :
    ∀ (f t r : Nat), ∀ e ∈ (recv_loop env f t r).1, ∃ s, e = CEv.bcast s := by
  intro f
  induction f with
  | zero => intro t r e h; simp [recv_loop_zero] at h
  | succ n ih =>
    intro t r e h
    by_cases hsh : env.sh t = true
    · rw [recv_loop_sh_true env n t r hsh] at h
      simp at h
    · rw [Bool.not_eq_true] at hsh
      cases hr : env.recv r with
      | rMsg s =>
        rw [recv_loop_msg env n t r s hsh hr] at h
        by_cases hs : s = ""
        · rw [if_pos hs] at h
          exact ih _ _ e h
        · rw [if_neg hs] at h
          rcases List.mem_cons.mp h with h1 | h1
          · exact ⟨s, h1⟩
          · exact ih _ _ e h1
      | rTimeout =>
        rw [recv_loop_timeout env n t r hsh hr] at h
        exact ih _ _ e h
      | rClosed =>
        rw [recv_loop_closed env n t r hsh hr] at h
        simp at h
      | rErr =>
        rw [recv_loop_err env n t r hsh hr] at h
        simp at h

/-- Every non-empty forwarded message: a broadcast call recorded by the
inner receive loop always carries a non-empty message. -/
theorem recv_loop_bcast_ne_empty (env : ConnEnv) :
    ∀ (f t r : Nat) (s : String),
      CEv.bcast s ∈ (recv_loop env f t r).1 → s ≠ "" := by
  intro f
  induction f with
  | zero => intro t r s h; simp [recv_loop_zero] at h
  | succ n ih =>
    intro t r s h
    by_cases hsh : env.sh t = true
    · rw [recv_loop_sh_true env n t r hsh] at h
      simp at h
    · rw [Bool.not_eq_true] at hsh
      cases hr : env.recv r with
      | rMsg s0 =>
        rw [recv_loop_msg env n t r s0 hsh hr] at h
        by_cases hs : s0 = ""
        · rw [if_pos hs] at h
          exact ih _ _ s h
        · rw [if_neg hs] at h
          rcases List.mem_cons.mp h with h1 | h1
          · cases h1
            exact hs
          · exact ih _ _ s h1
      | rTimeout =>
        rw [recv_loop_timeout env n t r hsh hr] at h
        exact ih _ _ s h
      | rClosed =>
        rw [recv_loop_closed env n t r hsh hr] at h
        simp at h
      | rErr =>
        rw [recv_loop_err env n t r hsh hr] at h
        simp at h

/-- The retry wait never lasts longer than its timeout. -/
theorem wait_for_shutdown_le (sh : Nat → Bool) :
    ∀ (n t : Nat), wait_for_shutdown sh t n ≤ n := by
  intro n
  induction n with
  | zero => intro t; simp [wait_for_shutdown]
  | succ m ih =>
    intro t
    rw [wait_for_shutdown]
    by_cases h : sh t = true
    · simp [h]
    · rw [Bool.not_eq_true] at h
      simp only [h, Bool.false_eq_true, if_false]
      exact Nat.succ_le_succ (ih (t + 1))

/-- The retry wait does not end while the shutdown event is unset and
the timeout has not elapsed: at every instant strictly before its end,
the event is unset. -/
theorem wait_for_shutdown_not_before (sh : Nat → Bool) :
    ∀ (n t e : Nat), e < wait_for_shutdown sh t n → sh (t + e) = false := by
  intro n
  induction n with
  | zero => intro t e h; simp [wait_for_shutdown] at h
  | succ m ih =>
    intro t e h
    rw [wait_for_shutdown] at h
    by_cases hs : sh t = true
    · simp [hs] at h
    · rw [Bool.not_eq_true] at hs
      simp only [hs, Bool.false_eq_true, if_false] at h
      cases e with
      | zero => simpa using hs
      | succ e0 =>
        have he : e0 < wait_for_shutdown sh (t + 1) m := by omega
        have := ih (t + 1) e0 he
        have harith : t + 1 + e0 = t + (e0 + 1) := by omega
        rwa [harith] at this

/-- If the retry wait ends strictly before its timeout, it ends because
the shutdown event fired at that instant. -/
theorem wait_for_shutdown_fires (sh : Nat → Bool) :
    ∀ (n t : Nat), wait_for_shutdown sh t n < n →
      sh (t + wait_for_shutdown sh t n) = true := by
  intro n
  induction n with
  | zero => intro t h; simp [wait_for_shutdown] at h
  | succ m ih =>
    intro t h
    rw [wait_for_shutdown] at h ⊢
    by_cases hs : sh t = true
    · simp [hs]
    · rw [Bool.not_eq_true] at hs
      simp only [hs, Bool.false_eq_true, if_false] at h ⊢
      have hrec : wait_for_shutdown sh (t + 1) m < m := by omega
      have := ih (t + 1) hrec
      have harith : t + 1 + wait_for_shutdown sh (t + 1) m
          = t + (wait_for_shutdown sh (t + 1) m + 1) := by omega
      rwa [harith] at this

/-- Complete case analysis of the events of the upstream-connector
task: the loop is observed stopping only with the shutdown event set;
every connect attempt begins with the event unset (the loop guard just
read `false`); every broadcast call carries a non-empty message; and
every retry wait is the line 127-131 wait, started with the event unset
and lasting exactly `wait_for_shutdown` of the 5-unit timeout. -/
theorem connector_mem_cases (env : ConnEnv) (g : Nat) :
    ∀ (n t k r : Nat), ∀ e ∈ receive_from_external_adsb env g n t k r,
      (∃ u, e = CEv.stopped u ∧ env.sh u = true)
      ∨ (∃ u j, e = CEv.connectAttempt u j ∧ env.sh u = false)
      ∨ (∃ u, e = CEv.connected u ∧ env.sh u = false)
      ∨ (∃ s, e = CEv.bcast s ∧ s ≠ "")
      ∨ (∃ u, e = CEv.waitRetry u (wait_for_shutdown env.sh u 5)
            ∧ env.sh u = false) := by
  intro n
  induction n with
  | zero =>
    intro t k r e h
    rw [connector_zero] at h
    simp at h
  | succ m ih =>
    intro t k r e h
    by_cases hsh : env.sh t = true
    · rw [connector_sh_true env g m t k r hsh] at h
      rcases List.mem_singleton.mp h with rfl
      exact Or.inl ⟨t, rfl, hsh⟩
    · rw [Bool.not_eq_true] at hsh
      cases hc : env.connect k with
      | connOk =>
        rw [connector_ok env g m t k r hsh hc] at h
        rcases List.mem_cons.mp h with rfl | h1
        · exact Or.inr (Or.inl ⟨t, k, rfl, hsh⟩)
        rcases List.mem_cons.mp h1 with rfl | h2
        · exact Or.inr (Or.inr (Or.inl ⟨t, rfl, hsh⟩))
        rcases List.mem_append.mp h2 with h3 | h3
        · obtain ⟨s, rfl⟩ := recv_loop_events env g (t + 1) r e h3
          exact Or.inr (Or.inr (Or.inr (Or.inl
            ⟨s, rfl, recv_loop_bcast_ne_empty env g (t + 1) r s h3⟩)))
        · by_cases h4 : env.sh ((recv_loop env g (t + 1) r).2.1) = true
          · rw [if_pos h4] at h3
            exact ih _ _ _ e h3
          · rw [if_neg h4] at h3
            rw [Bool.not_eq_true] at h4
            rcases List.mem_cons.mp h3 with rfl | h5
            · exact Or.inr (Or.inr (Or.inr (Or.inr ⟨_, rfl, h4⟩)))
            · exact ih _ _ _ e h5
      | connFailKnown =>
        rw [connector_fail_known env g m t k r hsh hc] at h
        rcases List.mem_cons.mp h with rfl | h1
        · exact Or.inr (Or.inl ⟨t, k, rfl, hsh⟩)
        by_cases h4 : env.sh (t + 1) = true
        · rw [if_pos h4] at h1
          exact ih _ _ _ e h1
        · rw [if_neg h4] at h1
          rw [Bool.not_eq_true] at h4
          rcases List.mem_cons.mp h1 with rfl | h5
          · exact Or.inr (Or.inr (Or.inr (Or.inr ⟨_, rfl, h4⟩)))
          · exact ih _ _ _ e h5
      | connFailOther =>
        rw [connector_fail_other env g m t k r hsh hc] at h
        rcases List.mem_cons.mp h with rfl | h1
        · exact Or.inr (Or.inl ⟨t, k, rfl, hsh⟩)
        by_cases h4 : env.sh (t + 1) = true
        · rw [if_pos h4] at h1
          exact ih _ _ _ e h1
        · rw [if_neg h4] at h1
          rw [Bool.not_eq_true] at h4
          rcases List.mem_cons.mp h1 with rfl | h5
          · exact Or.inr (Or.inr (Or.inr (Or.inr ⟨_, rfl, h4⟩)))
          · exact ih _ _ _ e h5

/-- Every connect attempt in a connector trace was begun with the
shutdown event unset. -/
theorem connector_attempt_guard (env : ConnEnv) (g n t k r t' k' : Nat)
    (h : CEv.connectAttempt t' k' ∈ receive_from_external_adsb env g n t k r) :
    env.sh t' = false := by
  rcases connector_mem_cases env g n t k r _ h with
    ⟨u, he, _⟩ | ⟨u, j, he, hu⟩ | ⟨u, he, _⟩ | ⟨s, he, _⟩ | ⟨u, he, _⟩
  · exact absurd he (by simp)
  · obtain ⟨rfl, rfl⟩ := CEv.connectAttempt.inj he
    exact hu
  · exact absurd he (by simp)
  · exact absurd he (by simp)
  · exact absurd he (by simp)

/-- Every retry wait in a connector trace was started with the shutdown
event unset and lasts exactly the `wait_for_shutdown` duration of the
5-unit timeout. -/
theorem connector_wait_spec (env : ConnEnv) (g n t k r t' d : Nat)
    (h : CEv.waitRetry t' d ∈ receive_from_external_adsb env g n t k r) :
    d = wait_for_shutdown env.sh t' 5 ∧ env.sh t' = false := by
  rcases connector_mem_cases env g n t k r _ h with
    ⟨u, he, _⟩ | ⟨u, j, he, _⟩ | ⟨u, he, _⟩ | ⟨s, he, _⟩ | ⟨u, he, hu⟩
  · exact absurd he (by simp)
  · exact absurd he (by simp)
  · exact absurd he (by simp)
  · exact absurd he (by simp)
  · obtain ⟨rfl, rfl⟩ := CEv.waitRetry.inj he
    exact ⟨rfl, hu⟩

/-- Every broadcast call in a connector trace carries a non-empty
message: line 112 drops empty messages before calling
`broadcast_message`. -/
theorem connector_bcast_ne_empty (env : ConnEnv) (g n t k r : Nat)
    (s : String)
    (h : CEv.bcast s ∈ receive_from_external_adsb env g n t k r) :
    s ≠ "" := by
  rcases connector_mem_cases env g n t k r _ h with
    ⟨u, he, _⟩ | ⟨u, j, he, _⟩ | ⟨u, he, _⟩ | ⟨s0, he, hs0⟩ | ⟨u, he, _⟩
  · exact absurd he (by simp)
  · exact absurd he (by simp)
  · exact absurd he (by simp)
  · obtain rfl := CEv.bcast.inj he
    exact hs0
  · exact absurd he (by simp)

/-- Scanner for the reconnect discipline: walking a connector trace,
`waitsBetween b evs` is `true` exactly when no connect attempt in `evs`
follows an earlier connect attempt without a retry wait in between (`b`
records whether an attempt is already pending without an intervening
wait). -/
def waitsBetween : Bool → List CEv → Bool
  | _, [] => true
  | b, CEv.connectAttempt _ _ :: rest => !b && waitsBetween true rest
  | _, CEv.waitRetry _ _ :: rest => waitsBetween false rest
  | b, _ :: rest => waitsBetween b rest

/-- Scanner step on a connect attempt. -/
theorem waitsBetween_attempt (b : Bool) (t k : Nat) (rest : List CEv) :
    waitsBetween b (CEv.connectAttempt t k :: rest)
      = (!b && waitsBetween true rest) := rfl

/-- Scanner step on a retry wait. -/
theorem waitsBetween_wait (b : Bool) (t d : Nat) (rest : List CEv) :
    waitsBetween b (CEv.waitRetry t d :: rest) = waitsBetween false rest := rfl

/-- Scanner step on a connection event. -/
theorem waitsBetween_connected (b : Bool) (t : Nat) (rest : List CEv) :
    waitsBetween b (CEv.connected t :: rest) = waitsBetween b rest := rfl

/-- Scanner step on a broadcast call. -/
theorem waitsBetween_bcast (b : Bool) (s : String) (rest : List CEv) :
    waitsBetween b (CEv.bcast s :: rest) = waitsBetween b rest := rfl

/-- Scanner step on the stop event. -/
theorem waitsBetween_stopped (b : Bool) (t : Nat) (rest : List CEv) :
    waitsBetween b (CEv.stopped t :: rest) = waitsBetween b rest := rfl

/-- Broadcast-only segments (the inner receive loop's events) do not
affect the scanner. -/
theorem waitsBetween_append_bcast (l : List CEv) :
    ∀ (rest : List CEv) (b : Bool), (∀ e ∈ l, ∃ s, e = CEv.bcast s) →
      waitsBetween b (l ++ rest) = waitsBetween b rest := by
  induction l with
  | nil => intro rest b _; rfl
  | cons e tl ih =>
    intro rest b hl
    obtain ⟨s, rfl⟩ := hl e (List.mem_cons_self e tl)
    rw [List.cons_append, waitsBetween_bcast]
    exact ih rest b (fun e he => hl e (List.mem_cons_of_mem _ he))

/-- The reconnect discipline of the connector: its traces always
satisfy the scanner, i.e. a retry wait separates every pair of
consecutive connect attempts, whatever ended the previous attempt
(failed connect, remote close, receive error, or shutdown observed by
the inner loop). -/
theorem connector_waitsBetween (env : ConnEnv) (g : Nat) :
    ∀ (n t k r : Nat),
      waitsBetween false (receive_from_external_adsb env g n t k r) = true := by
  intro n
  induction n with
  | zero => intro t k r; rw [connector_zero]; rfl
  | succ m ih =>
    intro t k r
    by_cases hsh : env.sh t = true
    · rw [connector_sh_true env g m t k r hsh, waitsBetween_stopped]; rfl
    · rw [Bool.not_eq_true] at hsh
      cases hc : env.connect k with
      | connOk =>
        rw [connector_ok env g m t k r hsh hc]
        simp only [List.cons_append]
        rw [waitsBetween_attempt, waitsBetween_connected,
          waitsBetween_append_bcast _ _ _ (recv_loop_events env g (t + 1) r)]
        by_cases h4 : env.sh ((recv_loop env g (t + 1) r).2.1) = true
        · rw [if_pos h4]
          cases m with
          | zero => rw [connector_zero]; rfl
          | succ m0 => rw [connector_sh_true env g m0 _ _ _ h4, waitsBetween_stopped]; rfl
        · rw [if_neg h4, waitsBetween_wait]
          simp [ih]
      | connFailKnown =>
        rw [connector_fail_known env g m t k r hsh hc, waitsBetween_attempt]
        by_cases h4 : env.sh (t + 1) = true
        · rw [if_pos h4]
          cases m with
          | zero => rw [connector_zero]; rfl
          | succ m0 => rw [connector_sh_true env g m0 _ _ _ h4, waitsBetween_stopped]; rfl
        · rw [if_neg h4, waitsBetween_wait]
          simp [ih]
      | connFailOther =>
        rw [connector_fail_other env g m t k r hsh hc, waitsBetween_attempt]
        by_cases h4 : env.sh (t + 1) = true
        · rw [if_pos h4]
          cases m with
          | zero => rw [connector_zero]; rfl
          | succ m0 => rw [connector_sh_true env g m0 _ _ _ h4, waitsBetween_stopped]; rfl
        · rw [if_neg h4, waitsBetween_wait]
          simp [ih]

/-! ## Claim theorems -/

/-- C1: for a broadcast of a non-empty message over the (duplicate-free)
registry snapshot taken at the start of the call, a send is attempted
exactly once to each member of the snapshot that is still open
(`Active`); a client not in the snapshot — in particular one added to
the registry after the snapshot — gets no send attempt from this
broadcast; and the call leaves the registry unchanged, so additions and
removals reach only the snapshot of subsequent broadcasts. -/
theorem C1_broadcast_snapshot_exactly_once (msg : String) (clients : List Nat)
    (isOpen : Nat → Bool) (sendRes : SendOracle) (c : Nat)
    (hmsg : msg ≠ "") (hnd : clients.Nodup) :
    ((broadcast_message msg clients isOpen sendRes).1.attempts.count c
      = if c ∈ clients ∧ isOpen c = true then 1 else 0)
    ∧ (c ∉ clients →
        c ∉ (broadcast_message msg clients isOpen sendRes).1.attempts)
    ∧ (broadcast_message msg clients isOpen sendRes).2 = clients := by
  refine ⟨?_, ?_, broadcast_message_registry msg clients isOpen sendRes⟩
  · rw [broadcast_message_attempts msg clients isOpen sendRes hmsg]
    exact count_filter_nodup clients _ c hnd
  · intro hc hmem
    rw [broadcast_message_attempts msg clients isOpen sendRes hmsg] at hmem
    exact hc (List.mem_filter.mp hmem).1

/-- C1 witness: a concrete three-client snapshot with client 2 closed. -/
theorem C1_broadcast_snapshot_exactly_once_witness :
    ("m" : String) ≠ "" ∧ ([1, 2, 3] : List Nat).Nodup
    ∧ ((broadcast_message "m" [1, 2, 3] (fun c => decide (c ≠ 2))
          (fun _ => Except.ok ())).1.attempts.count 1
        = if 1 ∈ [1, 2, 3] ∧ decide ((1 : Nat) ≠ 2) = true then 1 else 0) :=
  ⟨by decide, by decide,
    (C1_broadcast_snapshot_exactly_once "m" [1, 2, 3] (fun c => decide (c ≠ 2))
      (fun _ => Except.ok ()) 1 (by decide) (by decide)).1⟩

/-- C2: within a single broadcast call over a snapshot containing open
clients `a` and `b`, a send failure for `a` does not prevent the send
attempt to `b`; the failure is recorded in the log with the failing
client's identity; and the registry is untouched by the broadcast, so
`a` is not removed within the call.  The call always returns (the model
is a total function): no exception propagates out of
`broadcast_message`. -/
theorem C2_broadcast_failure_isolated (msg : String) (clients : List Nat)
    (isOpen : Nat → Bool) (sendRes : SendOracle) (a b : Nat) (e : String)
    (hmsg : msg ≠ "") (ha : a ∈ clients) (hoa : isOpen a = true)
    (hb : b ∈ clients) (hob : isOpen b = true)
    (hfail : sendRes a = Except.error e) :
    b ∈ (broadcast_message msg clients isOpen sendRes).1.attempts
    ∧ (a, e) ∈ (broadcast_message msg clients isOpen sendRes).1.sendErrors
    ∧ (broadcast_message msg clients isOpen sendRes).2 = clients := by
  refine ⟨?_, ?_, broadcast_message_registry msg clients isOpen sendRes⟩
  · rw [broadcast_message_attempts msg clients isOpen sendRes hmsg]
    exact List.mem_filter.mpr ⟨hb, hob⟩
  · rw [broadcast_message_sendErrors msg clients isOpen sendRes hmsg]
    refine List.mem_filterMap.mpr ⟨a, List.mem_filter.mpr ⟨ha, hoa⟩, ?_⟩
    rw [hfail]

/-- C2 witness: two open clients, the send to client 1 fails. -/
theorem C2_broadcast_failure_isolated_witness :
    2 ∈ (broadcast_message "m" [1, 2] (fun _ => true)
          (fun c => if c = 1 then Except.error "boom" else Except.ok ())).1.attempts
    ∧ (1, "boom") ∈ (broadcast_message "m" [1, 2] (fun _ => true)
          (fun c => if c = 1 then Except.error "boom" else Except.ok ())).1.sendErrors
    ∧ (broadcast_message "m" [1, 2] (fun _ => true)
          (fun c => if c = 1 then Except.error "boom" else Except.ok ())).2 = [1, 2] :=
  C2_broadcast_failure_isolated "m" [1, 2] (fun _ => true)
    (fun c => if c = 1 then Except.error "boom" else Except.ok ()) 1 2 "boom"
    (by decide) (by decide) rfl (by decide) rfl rfl

/-- C3: a connection whose handler starts while the shutdown event is
already set is closed with status code 1012 and the reason string
"Server shutting down", and is never added to the registry: the
registry is unchanged, both in the `register_client` entry itself and
in the lifecycle step system. -/
theorem C3_shutdown_rejects_new_clients (clients : List Nat) (c : Nat)
    (sh : Bool) (s : SysState) (hsh : sh = true) (hs : s.sh = true) :
    (register_client_entry sh clients c).1 = clients
    ∧ (register_client_entry sh clients c).2
        = AcceptOutcome.rejected 1012 "Server shutting down"
    ∧ (session_step s (SEv.accept c)).registry = s.registry := by
  subst hsh
  refine ⟨rfl, rfl, ?_⟩
  simp [session_step, register_client_entry, hs]

/-- C3 witness: concrete rejection with one registered client. -/
theorem C3_shutdown_rejects_new_clients_witness :
    (register_client_entry true [5] 7).1 = [5]
    ∧ (register_client_entry true [5] 7).2
        = AcceptOutcome.rejected 1012 "Server shutting down"
    ∧ (session_step { registry := [5], conns := [(5, true)], sh := true }
        (SEv.accept 7)).registry
        = SysState.registry { registry := [5], conns := [(5, true)], sh := true } :=
  C3_shutdown_rejects_new_clients [5] 7 true
    { registry := [5], conns := [(5, true)], sh := true } rfl rfl

/-- C8: broadcasting an empty message is a no-op that leaves the
registry unchanged; broadcasting to an empty registry is a no-op; and
the upstream connector forwards only non-empty received messages to
`broadcast_message` — an empty received message never produces a
broadcast call in any connector trace. -/
theorem C8_empty_message_and_empty_registry_noop :
    (∀ (clients : List Nat) (isOpen : Nat → Bool) (sendRes : SendOracle),
      broadcast_message "" clients isOpen sendRes
        = ({ attempts := [], skipped := [], sendErrors := [] }, clients))
    ∧ (∀ (msg : String) (isOpen : Nat → Bool) (sendRes : SendOracle),
      broadcast_message msg [] isOpen sendRes
        = ({ attempts := [], skipped := [], sendErrors := [] }, []))
    ∧ (∀ (env : ConnEnv) (g n t k r : Nat) (s : String),
      CEv.bcast s ∈ receive_from_external_adsb env g n t k r → s ≠ "") := by
  refine ⟨?_, ?_, ?_⟩
  · intro clients isOpen sendRes
    simp [broadcast_message]
  · intro msg isOpen sendRes
    by_cases h : msg = "" <;> simp [broadcast_message, h]
  · intro env g n t k r s h
    exact connector_bcast_ne_empty env g n t k r s h

/-- Environment in which the upstream always delivers the message "x"
and the shutdown event never fires. -/
def envMsg : ConnEnv :=
  { sh := fun _ => false,
    connect := fun _ => ConnectOutcome.connOk,
    recv := fun _ => RecvOutcome.rMsg "x" }

/-- C8 witness: the broadcast call the connector makes in `envMsg`
indeed carries a non-empty message. -/
theorem C8_empty_message_and_empty_registry_noop_witness :
    ("x" : String) ≠ "" :=
  C8_empty_message_and_empty_registry_noop.2.2 envMsg 1 1 0 0 0 "x" (by decide)

/-- C4: the upstream connector never begins a connect attempt once the
(monotone) shutdown event is set — the outer loop guard exits at once,
so every attempt in any trace precedes any instant at which the event
is set; every retry wait lasts at most 5 time units, ends early only
when the event fires, and does not end while the event is unset before
the timeout; and immediately after a failed connect attempt the
connector either observes the event and exits, or performs that retry
wait before its next attempt. -/
theorem C4_connector_stop_and_retry_discipline (env : ConnEnv)
    (g n t k r T : Nat) (hmono : ShMono env.sh) (hT : env.sh T = true) :
    (env.sh t = true →
      receive_from_external_adsb env g (n + 1) t k r = [CEv.stopped t])
    ∧ (∀ t' k', CEv.connectAttempt t' k'
          ∈ receive_from_external_adsb env g n t k r → t' < T)
    ∧ (∀ t' d, CEv.waitRetry t' d
          ∈ receive_from_external_adsb env g n t k r →
        d ≤ 5 ∧ (∀ e, e < d → env.sh (t' + e) = false)
          ∧ (d < 5 → env.sh (t' + d) = true))
    ∧ (env.sh t = false → env.connect k ≠ ConnectOutcome.connOk →
        receive_from_external_adsb env g (n + 1) t k r
          = CEv.connectAttempt t k ::
              (if env.sh (t + 1) then
                receive_from_external_adsb env g n (t + 1) (k + 1) r
              else
                CEv.waitRetry (t + 1) (wait_for_shutdown env.sh (t + 1) 5) ::
                  receive_from_external_adsb env g n
                    (t + 1 + wait_for_shutdown env.sh (t + 1) 5) (k + 1) r)) := by
  refine ⟨connector_sh_true env g n t k r, ?_, ?_, ?_⟩
  · intro t' k' h
    have hf : env.sh t' = false := connector_attempt_guard env g n t k r t' k' h
    by_contra hlt
    push_neg at hlt
    have := hmono T t' hlt hT
    rw [hf] at this
    exact Bool.false_ne_true this
  · intro t' d h
    obtain ⟨rfl, _⟩ := connector_wait_spec env g n t k r t' d h
    exact ⟨wait_for_shutdown_le env.sh 5 t',
      fun e he => wait_for_shutdown_not_before env.sh 5 t' e he,
      fun hlt => wait_for_shutdown_fires env.sh 5 t' hlt⟩
  · intro hsh hc
    cases hcc : env.connect k with
    | connOk => exact absurd hcc hc
    | connFailKnown => exact connector_fail_known env g n t k r hsh hcc
    | connFailOther => exact connector_fail_other env g n t k r hsh hcc

/-- Environment in which every connect attempt fails and the shutdown
event fires at instant 3. -/
def envFail : ConnEnv :=
  { sh := fun u => decide (3 ≤ u),
    connect := fun _ => ConnectOutcome.connFailKnown,
    recv := fun _ => RecvOutcome.rTimeout }

/-- The shutdown signal of `envFail` is monotone. -/
theorem envFail_mono : ShMono envFail.sh := by
  intro u v huv hu
  have h3 : 3 ≤ u := of_decide_eq_true hu
  exact decide_eq_true (Nat.le_trans h3 huv)

/-- C4 witness: in `envFail` the first connect attempt happens at
instant 0, before the shutdown instant 3. -/
theorem C4_connector_stop_and_retry_discipline_witness : (0 : Nat) < 3 :=
  (C4_connector_stop_and_retry_discipline envFail 0 2 0 0 0 3 envFail_mono
    (by decide)).2.1 0 0 (by decide)

/-- C10: in every trace of the upstream connector, a retry wait
separates every pair of consecutive connect attempts — whatever ended
the previous attempt: failed connect, remote close of an established
connection, receive error, or shutdown observed by the inner loop —
so there is no immediate-reconnect path; each such wait lasts at most 5
time units and is cut short only by the shutdown event firing.  The
scanner is not vacuous: a trace with two adjacent attempts and no wait
between them fails it. -/
theorem C10_wait_before_every_reconnect (env : ConnEnv) (g n t k r : Nat) :
    waitsBetween false (receive_from_external_adsb env g n t k r) = true
    ∧ (∀ t' d, CEv.waitRetry t' d ∈ receive_from_external_adsb env g n t k r →
        d ≤ 5 ∧ (d < 5 → env.sh (t' + d) = true)
          ∧ (∀ e, e < d → env.sh (t' + e) = false))
    ∧ waitsBetween false
        [CEv.connectAttempt 0 0, CEv.connectAttempt 1 1] = false := by
  refine ⟨connector_waitsBetween env g n t k r, ?_, rfl⟩
  intro t' d h
  obtain ⟨rfl, _⟩ := connector_wait_spec env g n t k r t' d h
  exact ⟨wait_for_shutdown_le env.sh 5 t',
    fun hlt => wait_for_shutdown_fires env.sh 5 t' hlt,
    fun e he => wait_for_shutdown_not_before env.sh 5 t' e he⟩

/-- Environment with a successful connect whose connection the remote
peer then closes, and whose shutdown event never fires. -/
def envDrop : ConnEnv :=
  { sh := fun _ => false,
    connect := fun _ => ConnectOutcome.connOk,
    recv := fun _ => RecvOutcome.rClosed }

/-- C10 witness: after the remote close in `envDrop`, the wait before
the reconnect runs its full 5 units. -/
theorem C10_wait_before_every_reconnect_witness :
    (5 : Nat) ≤ 5 ∧ ((5 : Nat) < 5 → envDrop.sh (2 + 5) = true)
      ∧ (∀ e, e < 5 → envDrop.sh (2 + e) = false) :=
  (C10_wait_before_every_reconnect envDrop 1 1 0 0 0).2.1 2 5 (by decide)

/-- C5 counterexample: on the coordinator path (lines 175-177), a set
of the already-set shutdown event logs no warning — the state is
unchanged but the "logged warning" part of the claim fails on this
path (only `os_signal_handler` logs the duplicate-set warning). -/
theorem C5_cex_coordinator_duplicate_set_silent :
    (coordinator_set_shutdown true).1 = true
    ∧ (coordinator_set_shutdown true).2.filter
        (fun l => l.1 == LogLevel.warn) = [] := by
  exact ⟨rfl, rfl⟩

/-- C5 amended: the shutdown signal is monotonic and its set operation
idempotent on both paths — neither the OS-signal-handler path nor the
coordinator path ever clears it, and setting it while already set
leaves the state unchanged — but the duplicate-set warning is logged
only on the OS-signal-handler path; the coordinator path repeats
silently. -/
theorem C5_shutdown_monotonic_idempotent (sh : Bool) (hsh : sh = true) :
    (os_signal_handler sh).1 = true
    ∧ (coordinator_set_shutdown sh).1 = true
    ∧ (os_signal_handler false).1 = true
    ∧ (coordinator_set_shutdown false).1 = true
    ∧ (LogLevel.warn, "Shutdown already in progress.")
        ∈ (os_signal_handler sh).2
    ∧ (coordinator_set_shutdown sh).2.filter
        (fun l => l.1 == LogLevel.warn) = [] := by
  subst hsh
  refine ⟨rfl, rfl, rfl, rfl, ?_, rfl⟩
  simp [os_signal_handler]

/-- C5 witness: instance with the event already set. -/
theorem C5_shutdown_monotonic_idempotent_witness :
    (os_signal_handler true).1 = true :=
  (C5_shutdown_monotonic_idempotent true rfl).1

/-- C6 counterexample: the state reached by accepting client 0 and the
remote peer then closing its connection — before the client's session
task has run its `finally` cleanup (lines 68-71) — has client 0 still
in the registry with its connection no longer open, so "a subscriber
appears in the registry if and only if its state is Active" does not
hold at every point of execution.  `broadcast_message` itself
anticipates exactly this state: line 88 warns and skips registered
clients whose connection is closed. -/
theorem C6_cex_registered_but_closed :
    (0 ∈ (session_run initState [SEv.accept 0, SEv.peerClose 0]).registry
      ∧ isActive (session_run initState [SEv.accept 0, SEv.peerClose 0]) 0
          = false)
    ∧ ¬ (∀ c : Nat,
        c ∈ (session_run initState [SEv.accept 0, SEv.peerClose 0]).registry
          ↔ isActive (session_run initState [SEv.accept 0, SEv.peerClose 0]) c
              = true) := by
  refine ⟨⟨by decide, by decide⟩, fun h => ?_⟩
  have h0 := (h 0).mp (by decide)
  exact absurd h0 (by decide)

/-- C6 amended: a subscriber is added to the registry only in the
Active state, but after its peer closes the connection it may remain
registered until its session task runs its cleanup; the broadcast path
compensates: a send is attempted only for clients whose connection is
open at snapshot-scan time, and a snapshot member found closed is
skipped with a warning and gets no send attempt. -/
theorem C6_broadcast_only_active (msg : String) (clients : List Nat)
    (isOpen : Nat → Bool) (sendRes : SendOracle) (c : Nat) (s : SysState)
    (hmsg : msg ≠ "") (hs : s.sh = false) :
    (c ∈ (broadcast_message msg clients isOpen sendRes).1.attempts →
      isOpen c = true)
    ∧ (c ∈ clients → isOpen c = false →
        c ∈ (broadcast_message msg clients isOpen sendRes).1.skipped
        ∧ c ∉ (broadcast_message msg clients isOpen sendRes).1.attempts)
    ∧ c ∈ (session_step s (SEv.accept c)).registry
    ∧ isActive (session_step s (SEv.accept c)) c = true := by
  refine ⟨?_, ?_, ?_, ?_⟩
  · intro h
    rw [broadcast_message_attempts msg clients isOpen sendRes hmsg] at h
    exact (List.mem_filter.mp h).2
  · intro hc hcl
    constructor
    · rw [broadcast_message_skipped msg clients isOpen sendRes hmsg]
      exact List.mem_filter.mpr ⟨hc, by rw [hcl]; rfl⟩
    · intro h
      rw [broadcast_message_attempts msg clients isOpen sendRes hmsg] at h
      have := (List.mem_filter.mp h).2
      rw [hcl] at this
      exact Bool.false_ne_true this
  · simp only [session_step, register_client_entry, hs, Bool.false_eq_true,
      if_false]
    by_cases hcr : c ∈ s.registry <;> simp [hcr]
  · simp [session_step, register_client_entry, hs, isActive, List.lookup]

/-- C6 amended witness: one registered closed client in a concrete
snapshot, and a fresh acceptance in a concrete running state. -/
theorem C6_broadcast_only_active_witness :
    (2 ∈ (broadcast_message "m" [1, 2] (fun c => decide (c = 1))
        (fun _ => Except.ok ())).1.skipped
      ∧ 2 ∉ (broadcast_message "m" [1, 2] (fun c => decide (c = 1))
        (fun _ => Except.ok ())).1.attempts)
    ∧ 2 ∈ (session_step { registry := [1], conns := [(1, true)], sh := false }
        (SEv.accept 2)).registry :=
  ⟨(C6_broadcast_only_active "m" [1, 2] (fun c => decide (c = 1))
      (fun _ => Except.ok ()) 2
      { registry := [1], conns := [(1, true)], sh := false }
      (by decide) rfl).2.1 (by decide) (by decide),
    (C6_broadcast_only_active "m" [1, 2] (fun c => decide (c = 1))
      (fun _ => Except.ok ()) 2
      { registry := [1], conns := [(1, true)], sh := false }
      (by decide) rfl).2.2.1⟩

/-- C7: when the upstream-connector task terminates first (with or
without an exception) while the service is running (shutdown event
unset at the check of line 176), `main_server_logic` logs the
termination (lines 166-168, with the exception when there is one), sets
the shutdown event (line 177), and runs the ordered shutdown sequence —
cancel pending tasks, close the listener and await it, await the
remaining main tasks and cancel them on timeout — ending with the
completion log: the function returns normally on every branch instead
of crashing. -/
theorem C7_connector_exit_triggers_shutdown (exc : Option String)
    (sc tf : Bool) :
    main_server_logic BindOutcome.bindOk true exc false sc tf
      = [MEv.listenerStarted, MEv.connectorTaskStarted,
         MEv.logConnectorExit exc, MEv.eventSet, MEv.cancelPending,
         MEv.listenerClose]
        ++ (if sc then [] else [MEv.logServerCloseTimeout])
        ++ [MEv.awaitMainTasks]
        ++ (if tf then [] else [MEv.logTasksTimeout, MEv.forcedCancel])
        ++ [MEv.shutdownComplete]
    ∧ MEv.eventSet ∈ main_server_logic BindOutcome.bindOk true exc false sc tf
    ∧ (main_server_logic BindOutcome.bindOk true exc false sc tf).getLast?
        = some MEv.shutdownComplete := by
  cases sc <;> cases tf <;>
    exact ⟨rfl, by simp [main_server_logic], rfl⟩

/-- C9: if binding the local listener fails — with the port-in-use
`OSError`, any other `OSError`, or any other exception — the failure is
logged at critical severity and `main_server_logic` returns at once:
its whole action trace is that single critical log, so the connector
task is never started and no listener runs. -/
theorem C9_bind_failure_fatal (cdf : Bool) (exc : Option String)
    (sh sc tf : Bool) :
    (main_server_logic BindOutcome.osErrPortInUse cdf exc sh sc tf
      = [MEv.logCritical "Port already in use"])
    ∧ (main_server_logic BindOutcome.osErrOther cdf exc sh sc tf
      = [MEv.logCritical "OSError during server startup"])
    ∧ (main_server_logic BindOutcome.otherExc cdf exc sh sc tf
      = [MEv.logCritical "Failed to start local server"])
    ∧ (∀ b, b ≠ BindOutcome.bindOk →
        MEv.connectorTaskStarted ∉ main_server_logic b cdf exc sh sc tf
        ∧ MEv.listenerStarted ∉ main_server_logic b cdf exc sh sc tf) := by
  refine ⟨rfl, rfl, rfl, ?_⟩
  intro b hb
  cases b with
  | bindOk => exact absurd rfl hb
  | osErrPortInUse =>
    exact ⟨by simp [main_server_logic], by simp [main_server_logic]⟩
  | osErrOther =>
    exact ⟨by simp [main_server_logic], by simp [main_server_logic]⟩
  | otherExc =>
    exact ⟨by simp [main_server_logic], by simp [main_server_logic]⟩

/-- C9 witness: with the port in use, the connector task is never
started. -/
theorem C9_bind_failure_fatal_witness :
    MEv.connectorTaskStarted
      ∉ main_server_logic BindOutcome.osErrPortInUse true none false true true :=
  ((C9_bind_failure_fatal true none false true true).2.2.2
    BindOutcome.osErrPortInUse (by decide)).1
